import Mathlib

/-
Shallow embedding of the dimension subsystem of the csdfpy/studium
repository (files `csdfpy/_independent_variables.py`,
`csdfpy/ControlledVariable.py`, `studium/nonLinearQuantitative.py`).

Physical quantities are modelled by their numerical value (a rational)
in the dimension's unit; units themselves are carried symbolically as
strings where a claim needs them (swap).  `numpy.inf` is modelled by an
explicit extended-value type `EV`.
-/

set_option autoImplicit false

/-- Extended numerical value: a finite rational or `numpy.inf`
(the value part of an astropy quantity in the dimension's unit). -/
inductive EV where
  | fin (q : ℚ)
  | inf
  deriving DecidableEq

/-- Errors the Python code can raise.  Each constructor names the Python
exception class observed at the corresponding `raise` site. -/
inductive PyErr where
  | typeError
  | valueError
  | attributeError
  | indexError
  deriving DecidableEq

/-- `ReciprocalVariable` (`_independent_variables.py:224`): a
`BaseIndependentVariable` holding the reciprocal axis's own
`_reference_offset`, `_origin_offset`, `_period`, `_quantity`, `_label`
and `_unit` slots. -/
structure ReciprocalVariable where
  reference_offset : ℚ
  origin_offset : ℚ
  period : EV
  quantity : String
  label : String
  unit : String
  deriving DecidableEq

/-- `DimensionWithLinearSpacing` (`_independent_variables.py:299`):
the linearly sampled dimension's mutable slots.  `coordinates` is the
cached `_coordinates` array. -/
structure DimensionWithLinearSpacing where
  number_of_points : Nat
  increment : ℚ
  fft_output_order : Bool
  reference_offset : ℚ
  origin_offset : ℚ
  period : EV
  quantity : String
  label : String
  unit : String
  reciprocal : ReciprocalVariable
  coordinates : List ℚ
  deriving DecidableEq

/-- The fft-order index array built by `_get_coordinates`
(`_independent_variables.py:430-436`):
`n = (N-1)//2 + 1`; positions `0..n-1` hold `arange(0, n)` and
positions `n..N-1` hold `arange(-(N//2), 0)`.
(The Python code assumes `N ≥ 1`; `number_of_points` is always ≥ 1.) -/
def fftIndex (N : Nat) : List ℤ :=
  let n := (N - 1) / 2 + 1
  (List.range n).map (fun (i : ℕ) => (i : ℤ)) ++
    (List.range (N / 2)).map (fun (i : ℕ) => (i : ℤ) - (N / 2 : Nat))

/-- `_get_coordinates` (`_independent_variables.py:423-439`): the index
array is `arange(N)`, replaced by `fftIndex N` when `_fft_output_order`
is set; the cached coordinates are `index * increment` (the increment's
numerical value in the dimension's unit).  The reference offset is not
used anywhere in this computation. -/
def get_coordinates (N : Nat) (m : ℚ) (fft : Bool) : List ℚ :=
  let index : List ℤ :=
    if fft then fftIndex N else (List.range N).map (fun (i : ℕ) => (i : ℤ))
  index.map (fun (j : ℤ) => (j : ℚ) * m)

/-- The period value stored by `_set_parameters`
(`_independent_variables.py:83-87`): a parsed value of exactly 0.0 is
replaced by `inf * unit`. -/
def set_parameters_period (p : EV) : EV :=
  if p = EV.fin 0 then EV.inf else p

/-- `DimensionWithLinearSpacing.__init__`
(`_independent_variables.py:340-392`): stores count, increment and
fft flag, runs `_set_parameters` (which coerces a zero period), builds
the reciprocal (whose `_set_parameters` likewise coerces its period),
then computes the cached coordinates via `_get_coordinates`. -/
def mkLinearDimension (N : Nat) (m : ℚ) (u : String)
    (refOff originOff : ℚ) (p : EV) (qty lbl : String) (fft : Bool)
    (recRefOff recOriginOff : ℚ) (recP : EV) (recQty recLbl : String) :
    DimensionWithLinearSpacing :=
  { number_of_points := N
    increment := m
    fft_output_order := fft
    reference_offset := refOff
    origin_offset := originOff
    period := set_parameters_period p
    quantity := qty
    label := lbl
    unit := u
    reciprocal :=
      { reference_offset := recRefOff
        origin_offset := recOriginOff
        period := set_parameters_period recP
        quantity := recQty
        label := recLbl
        unit := "(" ++ u ++ ")^-1" }
    coordinates := get_coordinates N m fft }

/-- `reference_offset` setter (`_independent_variables.py:106-112`):
after the type/unit checks it only stores the parsed value; the cached
coordinates are not recomputed. -/
def reference_offset_set (s : DimensionWithLinearSpacing) (c : ℚ) :
    DimensionWithLinearSpacing :=
  { s with reference_offset := c }

/-- `increment` setter (`_independent_variables.py:480-492`): raises
`ValueError` when the parsed numerical value is `< 0.0` (zero passes the
check), otherwise stores the value and recomputes the coordinates.
The pair returns the raised error (if any) together with the state
after the call. -/
def increment_set (s : DimensionWithLinearSpacing) (v : ℚ) :
    Option PyErr × DimensionWithLinearSpacing :=
  if v < 0 then (some PyErr.valueError, s)
  else
    (none,
      { s with
        increment := v
        coordinates := get_coordinates s.number_of_points v s.fft_output_order })

/-- `FFT_output_order` setter (`_independent_variables.py:500-507`):
stores the boolean and recomputes the coordinates. -/
def fft_output_order_set (s : DimensionWithLinearSpacing) (v : Bool) :
    DimensionWithLinearSpacing :=
  { s with
    fft_output_order := v
    coordinates := get_coordinates s.number_of_points s.increment v }

/-- `_swap` (`_independent_variables.py:397-421`): exchanges
`_reference_offset`, `_origin_offset`, `_period`, `_quantity`, `_label`
and `_unit` between the dimension and its reciprocal; nothing else is
touched. -/
def swap (s : DimensionWithLinearSpacing) : DimensionWithLinearSpacing :=
  { s with
    reference_offset := s.reciprocal.reference_offset
    origin_offset := s.reciprocal.origin_offset
    period := s.reciprocal.period
    quantity := s.reciprocal.quantity
    label := s.reciprocal.label
    unit := s.reciprocal.unit
    reciprocal :=
      { reference_offset := s.reference_offset
        origin_offset := s.origin_offset
        period := s.period
        quantity := s.quantity
        label := s.label
        unit := s.unit } }

/-- The index sequence as the claim words it: non-negative run
`[0, 1, …, n-1]` with `n = ⌊(N-1)/2⌋ + 1`, then the negative run
`[-(N-⌊N/2⌋), …, -1]` in increasing order. -/
def claimFftIndex (N : Nat) : List ℤ :=
  let n := (N - 1) / 2 + 1
  (List.range n).map (fun (i : ℕ) => (i : ℤ)) ++
    (List.range (N - N / 2)).map (fun (i : ℕ) => -((N : ℤ) - (N / 2 : Nat)) + i)

/-- The index sequence as the amended claim words it: the negative run
starts at `-⌊N/2⌋` instead of `-(N-⌊N/2⌋)`. -/
def amendedFftIndex (N : Nat) : List ℤ :=
  let n := (N - 1) / 2 + 1
  (List.range n).map (fun (i : ℕ) => (i : ℤ)) ++
    (List.range (N / 2)).map (fun (i : ℕ) => -((N / 2 : Nat) : ℤ) + i)

/-
Facade selection logic (`ControlledVariable.py:36-69` and
`ControlledVariable.__init__`, lines 208-275).  Only the presence of
the configuration keys matters to the branch conditions, so option
types carry the (otherwise unconstrained) payloads.
-/

/-- The configuration keys `ControlledVariable.__init__` inspects when
choosing the variant (`None` models an absent/defaulted key). -/
structure CVConfig where
  non_quantitative : Bool
  number_of_points : Option Nat
  sampling_interval : Option ℚ
  values : Option (List String)
  deriving DecidableEq

/-- Errors raised by the `_check_*` helpers of `ControlledVariable.py`. -/
inductive CVError where
  | valuesKeyRequired
  | countOrValuesRequired
  deriving DecidableEq

/-- The three concrete dimension variants the facade can build. -/
inductive Variant where
  | linear
  | arbitrary
  | labeled
  deriving DecidableEq

/-- `_check_non_quantitative` (`ControlledVariable.py:62-69`): true iff
`non_quantitative` is set; raises when it is set but `values` is absent. -/
def check_non_quantitative (d : CVConfig) : Except CVError Bool :=
  if d.non_quantitative then
    if d.values.isNone then Except.error CVError.valuesKeyRequired
    else Except.ok true
  else Except.ok false

/-- `_check_quantitative` (`ControlledVariable.py:36-44`): when not
non-quantitative, raises the configuration error iff `number_of_points`,
`sampling_interval` and `values` are all absent, else reports
quantitative. -/
def check_quantitative (d : CVConfig) : Except CVError Bool := do
  let nq ← check_non_quantitative d
  if !nq then
    if d.number_of_points.isNone && d.sampling_interval.isNone
        && d.values.isNone then
      Except.error CVError.countOrValuesRequired
    else pure true
  else pure false

/-- `_check_quantitative_linear` (`ControlledVariable.py:47-52`). -/
def check_quantitative_linear (d : CVConfig) : Except CVError Bool := do
  let q ← check_quantitative d
  pure (q && d.number_of_points.isSome && d.sampling_interval.isSome)

/-- `_check_quantitative_arbitrary` (`ControlledVariable.py:55-59`). -/
def check_quantitative_arbitrary (d : CVConfig) : Except CVError Bool := do
  let q ← check_quantitative d
  pure (q && d.values.isSome)

/-- The variant-selection performed by `ControlledVariable.__init__`
(`ControlledVariable.py:208-275`): three successive `if` statements
(not `elif`) each overwrite `_gcv_object`; `Except.ok none` models the
path on which no branch fired and `_gcv_object` is never assigned (the
final `__setattr__('gcv', _gcv_object)` then raises
`UnboundLocalError`, not a configuration error). -/
def selectVariant (d : CVConfig) : Except CVError (Option Variant) := do
  let mut gcv : Option Variant := none
  if (← check_non_quantitative d) then
    gcv := some Variant.labeled
  if (← check_quantitative_arbitrary d) then
    gcv := some Variant.arbitrary
  if (← check_quantitative_linear d) then
    gcv := some Variant.linear
  pure gcv

/-- The selection rule as the claim words it: labeled when
`non_quantitative` (requiring `values`); else linear when both count and
increment are present; else arbitrary when `values` is present; else the
configuration error. -/
def claimSelect (d : CVConfig) : Except CVError Variant :=
  if d.non_quantitative then
    if d.values.isSome then Except.ok Variant.labeled
    else Except.error CVError.valuesKeyRequired
  else if d.number_of_points.isSome && d.sampling_interval.isSome then
    Except.ok Variant.linear
  else if d.values.isSome then Except.ok Variant.arbitrary
  else Except.error CVError.countOrValuesRequired

/-- The selection rule as the amended claim words it: the configuration
error fires only when count, increment and values are all absent; when
exactly one of count/increment is present without values, no variant is
built and no configuration error is raised (`none`). -/
def amendedSelect (d : CVConfig) : Except CVError (Option Variant) :=
  if d.non_quantitative then
    if d.values.isSome then Except.ok (some Variant.labeled)
    else Except.error CVError.valuesKeyRequired
  else if d.number_of_points.isSome && d.sampling_interval.isSome then
    Except.ok (some Variant.linear)
  else if d.values.isSome then Except.ok (some Variant.arbitrary)
  else if d.number_of_points.isNone && d.sampling_interval.isNone then
    Except.error CVError.countOrValuesRequired
  else Except.ok none

/-
`number_of_points` setter on the facade for a non-linear (arbitrary or
labeled) variant (`ControlledVariable.py:671-705`).
-/

/-- The slots of a non-linear gcv object the `number_of_points` setter
can touch: the stored count and the stored values array. -/
structure NonLinearGcv where
  number_of_points : Nat
  values : List String
  deriving DecidableEq

/-- `ControlledVariable.number_of_points` setter for a non-linear
variant (`ControlledVariable.py:671-705`): rejects non-positive values
and values above the current count with `ValueError`; when the value is
below the current count it warns (the Bool records that a warning was
issued) and stores the new count.  Only `_number_of_points` is assigned;
the stored values array is not touched. -/
def number_of_points_set (s : NonLinearGcv) (v : ℤ) :
    Option PyErr × NonLinearGcv × Bool :=
  if v ≤ 0 then (some PyErr.valueError, s, false)
  else if v > (s.number_of_points : ℤ) then (some PyErr.valueError, s, false)
  else if v < (s.number_of_points : ℤ) then
    (none, { s with number_of_points := v.toNat }, true)
  else (none, { s with number_of_points := v.toNat }, false)

/-
`studium/nonLinearQuantitative.py`: the `made_dimensionless` setter and
`_dimensionlessConversion` (lines 213-218 and 316-330).
-/

/-- The slots of `_nonLinearQuantitativeControlledVariable` involved in
the `made_dimensionless` mutation.  Coordinate values are numerical
values in the dimension's unit (or in ppm when dimensionless; the
`to(_ppm)` / `to(unit)` conversions scale by 10^6). -/
structure StudiumVar where
  reference_offset : ℚ
  origin_offset : ℚ
  made_dimensionless : Bool
  coordinates : List ℚ
  deriving DecidableEq

/-- `_dimensionlessConversion` (`nonLinearQuantitative.py:316-330`).
When the denominator `origin_offset + reference_offset` is zero the
source executes `self._made_dimensionless = _oldValue`; that plain
attribute assignment is intercepted by the class's `__setattr__`
(`nonLinearQuantitative.py:129-135`), which raises
`AttributeError("attribute ... cannot be modified")` for every name in
`__slots__` — `'_made_dimensionless'` is in `__slots__` (line 22) — so
the assignment raises and the `print` on line 330 is never reached.
The pair returns the raised error (if any) with the state after the
call. -/
def dimensionlessConversion (s : StudiumVar) (oldValue : Bool) :
    Option PyErr × StudiumVar :=
  let denominator := s.origin_offset + s.reference_offset
  if denominator ≠ 0 then
    if s.made_dimensionless && oldValue then (none, s)
    else if !s.made_dimensionless && !oldValue then (none, s)
    else if s.made_dimensionless && !oldValue then
      (none,
        { s with
          coordinates := s.coordinates.map (fun x => x / denominator * 1000000) })
    else
      (none,
        { s with
          coordinates := s.coordinates.map (fun x => x * denominator / 1000000) })
  else (some PyErr.attributeError, s)

/-- `made_dimensionless` setter (`nonLinearQuantitative.py:213-218`):
records the old flag, commits the new one via `setAttribute` (which
bypasses the `__setattr__` guard), then runs the conversion. -/
def made_dimensionless_set (s : StudiumVar) (value : Bool) :
    Option PyErr × StudiumVar :=
  let oldValue := s.made_dimensionless
  dimensionlessConversion { s with made_dimensionless := value } oldValue

/-
Python string helpers for the `period` setter
(`_independent_variables.py:134-144`; the facade setter at
`ControlledVariable.py:947-964` uses the identical sentinel check).
-/

/-- Python whitespace, as used by `str.split()` with no argument. -/
def pyIsSpace (c : Char) : Bool := c.isWhitespace

/-- Worker for `pySplit`: accumulates the current word (reversed). -/
def splitAux : List Char → List Char → List (List Char)
  | [], acc => if acc = [] then [] else [acc.reverse]
  | c :: cs, acc =>
    if pyIsSpace c then
      if acc = [] then splitAux cs [] else acc.reverse :: splitAux cs []
    else splitAux cs (c :: acc)

/-- Python `value.split()` (no argument): splits on runs of whitespace
and never yields empty tokens, so the result is `[]` exactly on
whitespace-only input.  `value.strip().split()` computes the same list. -/
def pySplit (v : List Char) : List (List Char) := splitAux v []

/-- The infinity sentinels of the `period` setter
(`_independent_variables.py:139`). -/
def infTokens : List (List Char) :=
  ["inf", "Inf", "infinity", "Infinity", "∞"].map String.toList

/-- `period` setter (`_independent_variables.py:134-144`): after the
string type check, evaluates `value.strip().split()[0]`; on a
whitespace-only string the split list is empty and the `[0]` raises
`IndexError`.  When the first token is a sentinel, `inf*unit` is stored;
otherwise `_check_value_object(value, unit)` is stored verbatim —
`parsed` is the value that external parse produces (no zero check). -/
def period_set (s : DimensionWithLinearSpacing) (value : List Char)
    (parsed : EV) : Except PyErr DimensionWithLinearSpacing :=
  match pySplit value with
  | [] => Except.error PyErr.indexError
  | t :: _ =>
    if t ∈ infTokens then Except.ok { s with period := EV.inf }
    else Except.ok { s with period := parsed }

/-
Accessor guards of `ControlledVariable.py` (C9).  `variable_type` is
one of the strings in `_quantitative_variable_types`
(`ControlledVariable.py:32-33`); `reciprocal_coordinates` (line 396)
tests `self.variable_type in _quantitative_variable_types[0]` — a
Python substring test against the linear type string — while
`absolute_coordinates` (line 373), `reciprocal_reference_offset`
(line 490) and `reciprocal_origin_offset` (line 577) test list
membership `self.variable_type in _quantitative_variable_types`.
-/

/-- Python `needle in hay` on strings: `needle` occurs as a contiguous
substring of `hay` (the empty needle always matches). -/
def strContains (hay needle : List Char) : Bool :=
  (List.range (hay.length + 1)).any (fun i => needle.isPrefixOf (hay.drop i))

/-- The two quantitative `variable_type` strings
(`ControlledVariable.py:32-33`). -/
def quantitative_variable_types : List String :=
  ["Linearly sampled grid controlled variable",
   "Arbitrarily sampled grid controlled variable"]

/-- The quantitative variants a `ControlledVariable` can wrap. -/
inductive QVType where
  | linear
  | arbitrary
  deriving DecidableEq

/-- The `variable_type` string reported by the wrapped gcv object. -/
def variableTypeString : QVType → String
  | QVType.linear => "Linearly sampled grid controlled variable"
  | QVType.arbitrary => "Arbitrarily sampled grid controlled variable"

/-- `reciprocal_coordinates` guard (`ControlledVariable.py:396-400`):
`if self.variable_type in _quantitative_variable_types[0]` — a substring
test against the linear type string; otherwise `AttributeError`. -/
def reciprocal_coordinates_access (v : QVType) : Except PyErr Unit :=
  if strContains ("Linearly sampled grid controlled variable").toList
      (variableTypeString v).toList then Except.ok ()
  else Except.error PyErr.attributeError

/-- `absolute_coordinates` guard (`ControlledVariable.py:373-378`):
list membership in `_quantitative_variable_types`. -/
def absolute_coordinates_access (v : QVType) : Except PyErr Unit :=
  if variableTypeString v ∈ quantitative_variable_types then Except.ok ()
  else Except.error PyErr.attributeError

/-- `reciprocal_reference_offset` guard (`ControlledVariable.py:490-496`):
list membership in `_quantitative_variable_types`. -/
def reciprocal_reference_offset_access (v : QVType) : Except PyErr Unit :=
  if variableTypeString v ∈ quantitative_variable_types then Except.ok ()
  else Except.error PyErr.attributeError

/-- `reciprocal_origin_offset` guard (`ControlledVariable.py:577-581`):
list membership in `_quantitative_variable_types`. -/
def reciprocal_origin_offset_access (v : QVType) : Except PyErr Unit :=
  if variableTypeString v ∈ quantitative_variable_types then Except.ok ()
  else Except.error PyErr.attributeError

/-- A concrete linear dimension used by witnesses: count 3, increment
1 G, zero offsets, default (infinite) period. -/
def sampleLinearDim : DimensionWithLinearSpacing :=
  mkLinearDimension 3 1 "G" 0 0 (EV.fin 0) "" "" false 0 0 (EV.fin 0) "" ""

/-- A linear dimension with count 2, increment 1 G and reference offset
1 G (all other fields default). -/
def refOffsetDim : DimensionWithLinearSpacing :=
  mkLinearDimension 2 1 "G" 1 0 (EV.fin 0) "" "" false 0 0 (EV.fin 0) "" ""

/-- A configuration carrying `number_of_points` but neither
`sampling_interval` nor `values`. -/
def countOnlyConfig : CVConfig :=
  { non_quantitative := false
    number_of_points := some 10
    sampling_interval := none
    values := none }

/-- An arbitrarily sampled gcv with five stored values. -/
def arbFiveValues : NonLinearGcv :=
  { number_of_points := 5
    values := ["0cm", "1cm", "2cm", "3cm", "4cm"] }

/-- A studium dimension whose `origin_offset + reference_offset` is
zero. -/
def zeroOffsetStudium : StudiumVar :=
  { reference_offset := 0
    origin_offset := 0
    made_dimensionless := false
    coordinates := [1, 2] }

/-
Helper lemmas.
-/

theorem fftIndex_eq_amended (N : Nat) : fftIndex N = amendedFftIndex N := by
  unfold fftIndex amendedFftIndex
  have h : (fun i : Nat => (i : ℤ) - (N / 2 : Nat)) =
      fun i : Nat => -((N / 2 : Nat) : ℤ) + i := by
    funext i; omega
  rw [h]

theorem splitAux_eq_nil_iff (v : List Char) : ∀ acc : List Char,
    (splitAux v acc = [] ↔ (v.all pyIsSpace = true ∧ acc = [])) := by
  induction v with
  | nil =>
    intro acc
    by_cases hacc : acc = [] <;> simp [splitAux, hacc]
  | cons c cs ih =>
    intro acc
    by_cases hc : pyIsSpace c
    · by_cases hacc : acc = []
      · subst hacc
        simp [splitAux, hc, ih]
      · simp [splitAux, hc, hacc]
    · simp [splitAux, hc, ih (c :: acc)]

theorem pySplit_eq_nil_iff (v : List Char) :
    pySplit v = [] ↔ v.all pyIsSpace = true := by
  rw [pySplit, splitAux_eq_nil_iff]
  simp

/-
Claim theorems.
-/

/-- C1 (counterexample): as stated, the claim fails — for `N = 5` and
`m = 1` the computed fft-order coordinates `[0, 1, 2, -2, -1]` differ
from the claimed index sequence `[0, 1, …, n-1, -(N-⌊N/2⌋), …, -1]`
times `m`, which is `[0, 1, 2, -3, -2, -1]` and does not even have
length `N`. -/
theorem C1_counterexample :
    get_coordinates 5 1 true ≠
      (claimFftIndex 5).map (fun (i : ℤ) => (i : ℚ) * 1) := by
  intro h
  have hlen := congrArg List.length h
  simp [get_coordinates, fftIndex, claimFftIndex] at hlen

/-- C1 (amended): for a linear dimension with count `N ≥ 1` and
increment `m`, the fft-order coordinate array equals the index sequence
`[0, 1, …, n-1, -⌊N/2⌋, …, -1]` (with `n = ⌊(N-1)/2⌋ + 1`), each index
multiplied by `m`; in particular for `N = 10` the coordinates in units
of `m` are `[0,1,2,3,4,-5,-4,-3,-2,-1]` and for `N = 5` they are
`[0,1,2,-2,-1]`. -/
theorem C1_fft_output_order (N : Nat) (m : ℚ) (hN : 1 ≤ N) :
    get_coordinates N m true =
      (amendedFftIndex N).map (fun (i : ℤ) => (i : ℚ) * m) ∧
    get_coordinates 10 m true =
      ([0, 1, 2, 3, 4, -5, -4, -3, -2, -1] : List ℤ).map
        (fun (i : ℤ) => (i : ℚ) * m) ∧
    get_coordinates 5 m true =
      ([0, 1, 2, -2, -1] : List ℤ).map (fun (i : ℤ) => (i : ℚ) * m) := by
  have h10 : fftIndex 10 = [0, 1, 2, 3, 4, -5, -4, -3, -2, -1] := by decide
  have h5 : fftIndex 5 = [0, 1, 2, -2, -1] := by decide
  refine ⟨?_, ?_, ?_⟩
  · show (fftIndex N).map (fun (j : ℤ) => (j : ℚ) * m) = _
    rw [fftIndex_eq_amended]
  · show (fftIndex 10).map (fun (j : ℤ) => (j : ℚ) * m) = _
    rw [h10]
  · show (fftIndex 5).map (fun (j : ℤ) => (j : ℚ) * m) = _
    rw [h5]

/-- C1 (witness): the amended theorem applied at `N = 3`, `m = 2`. -/
theorem C1_witness :
    1 ≤ 3 ∧
      get_coordinates 3 2 true =
        (amendedFftIndex 3).map (fun (i : ℤ) => (i : ℚ) * 2) :=
  ⟨by decide, (C1_fft_output_order 3 2 (by decide)).1⟩

/-- C2: the claim is right and the code is wrong.  The class docstring
(`_independent_variables.py:316-319`) defines
`X_ref = [m·j]_(j=0..N-1) − c·1`, but `_get_coordinates` never subtracts
the reference offset: for count 2, increment 1 and reference offset 1
the cached coordinates are `[0, 1]`, not the documented `[-1, 0]`, and
raising the reference offset by δ = 1 (the setter at lines 106-112
does not recompute anything) leaves the coordinates unchanged instead
of shifting them down by δ. -/
theorem C2_reference_offset_ignored :
    refOffsetDim.reference_offset = 1 ∧
    refOffsetDim.coordinates = [0, 1] ∧
    [(0 : ℚ) * 1 - 1, (1 : ℚ) * 1 - 1] = [-1, 0] ∧
    refOffsetDim.coordinates ≠ [-1, 0] ∧
    (reference_offset_set refOffsetDim 2).coordinates =
      refOffsetDim.coordinates := by
  refine ⟨rfl, ?_, by norm_num, ?_, rfl⟩
  · norm_num [refOffsetDim, mkLinearDimension, get_coordinates,
      List.range_succ]
  · norm_num [refOffsetDim, mkLinearDimension, get_coordinates,
      List.range_succ]

/-- C3: `_swap` exchanges exactly the six fields reference-offset,
origin-offset, period, quantity, label and unit between a linear
dimension and its reciprocal, changes no other field, and is an
involution. -/
theorem C3_swap_exchanges (s : DimensionWithLinearSpacing) :
    (swap s).reference_offset = s.reciprocal.reference_offset ∧
    (swap s).origin_offset = s.reciprocal.origin_offset ∧
    (swap s).period = s.reciprocal.period ∧
    (swap s).quantity = s.reciprocal.quantity ∧
    (swap s).label = s.reciprocal.label ∧
    (swap s).unit = s.reciprocal.unit ∧
    (swap s).reciprocal.reference_offset = s.reference_offset ∧
    (swap s).reciprocal.origin_offset = s.origin_offset ∧
    (swap s).reciprocal.period = s.period ∧
    (swap s).reciprocal.quantity = s.quantity ∧
    (swap s).reciprocal.label = s.label ∧
    (swap s).reciprocal.unit = s.unit ∧
    (swap s).number_of_points = s.number_of_points ∧
    (swap s).increment = s.increment ∧
    (swap s).fft_output_order = s.fft_output_order ∧
    (swap s).coordinates = s.coordinates ∧
    swap (swap s) = s :=
  ⟨rfl, rfl, rfl, rfl, rfl, rfl, rfl, rfl, rfl, rfl, rfl, rfl, rfl, rfl,
    rfl, rfl, rfl⟩

/-- C4 (counterexample): for the configuration with
`number_of_points = 10` but no `sampling_interval` and no `values`, the
facade raises no configuration error and builds no variant
(`_gcv_object` stays unassigned), whereas the claimed rule demands the
"either count+increment or values is required" error. -/
theorem C4_counterexample :
    selectVariant countOnlyConfig = Except.ok none ∧
    claimSelect countOnlyConfig =
      Except.error CVError.countOrValuesRequired :=
  ⟨rfl, rfl⟩

/-- C4 (amended): the facade picks the variant by the claimed rule
except in the fall-through case: the configuration error fires only
when `number_of_points`, `sampling_interval` and `values` are all
absent; when exactly one of count/increment is present without values,
no variant is built and no configuration error is raised. -/
theorem C4_variant_selection (d : CVConfig) :
    selectVariant d = amendedSelect d := by
  obtain ⟨nq, np, si, vals⟩ := d
  cases nq <;> cases np <;> cases si <;> cases vals <;> rfl

/-- C5: the claim is right and the code is wrong.  Setting
`number_of_points = 3` on an arbitrary dimension holding 5 values warns
(the warning text even says the coordinates "are truncated") and stores
the new count, but the stored values array keeps all 5 entries — it is
never truncated; setting `number_of_points = 6` raises `ValueError` and
leaves the state unchanged. -/
theorem C5_count_not_truncating :
    number_of_points_set arbFiveValues 3 =
      (none, { number_of_points := 3, values := arbFiveValues.values },
        true) ∧
    (number_of_points_set arbFiveValues 3).2.1.values.length = 5 ∧
    number_of_points_set arbFiveValues 6 =
      (some PyErr.valueError, arbFiveValues, false) := by
  refine ⟨?_, ?_, ?_⟩ <;> decide

/-- C6: the claim is right and the code is wrong.  The increment
setter's guard is `_value.value < 0.0`, so a zero increment — which the
setter's own error message and the `sampling_interval` docstring say
must be a positive real number — is accepted: the stored increment
becomes 0 and the coordinates are recomputed to `[0, 0, 0]`.  A
negative increment does raise `ValueError` and leaves the state
unchanged. -/
theorem C6_zero_increment_accepted :
    (increment_set sampleLinearDim 0).1 = none ∧
    (increment_set sampleLinearDim 0).2.increment = 0 ∧
    (increment_set sampleLinearDim 0).2.coordinates = [0, 0, 0] ∧
    increment_set sampleLinearDim (-1) =
      (some PyErr.valueError, sampleLinearDim) := by
  refine ⟨?_, ?_, ?_, ?_⟩ <;>
    norm_num [increment_set, sampleLinearDim, mkLinearDimension,
      get_coordinates, List.range_succ]

/-- C7 (counterexample): the observable period can be zero.  A
dimension constructed with a zero period does get `inf` (the
`_set_parameters` coercion), but the `period` setter has no zero check:
assigning the quantity string "0 G" (parsed value 0) stores a zero
period. -/
theorem C7_counterexample :
    sampleLinearDim.period = EV.inf ∧
    period_set sampleLinearDim ("0 G".toList) (EV.fin 0) =
      Except.ok { sampleLinearDim with period := EV.fin 0 } ∧
    EV.fin 0 ≠ EV.inf := by
  refine ⟨rfl, rfl, by decide⟩

/-- C7 (amended): a zero-valued period is coerced to positive infinity
at construction (`_set_parameters`), but the `period` setter coerces
only the textual infinity sentinels and stores a zero-valued quantity
string as a literal zero period. -/
theorem C7_period_zero_handling (s : DimensionWithLinearSpacing)
    (parsed : EV) :
    set_parameters_period (EV.fin 0) = EV.inf ∧
    period_set s ("0 G".toList) (EV.fin 0) =
      Except.ok { s with period := EV.fin 0 } ∧
    period_set s ("inf G".toList) parsed =
      Except.ok { s with period := EV.inf } := by
  refine ⟨rfl, rfl, rfl⟩

/-- C8: mutating `made_dimensionless` while
`origin_offset + reference_offset` is zero raises synchronously inside
the setter call: the zero-division guard's rollback assignment
`self._made_dimensionless = _oldValue` goes through the slot-protecting
`__setattr__` and raises `AttributeError` (the swallow-and-print path is
unreachable), so the error condition is not silently absorbed. -/
theorem C8_zero_division_raises (s : StudiumVar) (v : Bool)
    (h : s.origin_offset + s.reference_offset = 0) :
    (made_dimensionless_set s v).1 = some PyErr.attributeError := by
  unfold made_dimensionless_set dimensionlessConversion
  simp [h]

/-- C8 (witness): the theorem applied to a concrete studium dimension
with both offsets zero. -/
theorem C8_witness :
    zeroOffsetStudium.origin_offset + zeroOffsetStudium.reference_offset
        = 0 ∧
    (made_dimensionless_set zeroOffsetStudium true).1 =
      some PyErr.attributeError :=
  ⟨by norm_num [zeroOffsetStudium],
    C8_zero_division_raises zeroOffsetStudium true
      (by norm_num [zeroOffsetStudium])⟩

/-- C9: `reciprocal_coordinates` raises `AttributeError` on an
arbitrarily sampled dimension and succeeds only on a linearly sampled
one (its guard is the substring test
`variable_type in _quantitative_variable_types[0]`), while the sibling
accessors `absolute_coordinates`, `reciprocal_reference_offset` and
`reciprocal_origin_offset` (list-membership guards) accept both
quantitative variants. -/
theorem C9_reciprocal_coordinates_guard :
    reciprocal_coordinates_access QVType.arbitrary =
      Except.error PyErr.attributeError ∧
    reciprocal_coordinates_access QVType.linear = Except.ok () ∧
    absolute_coordinates_access QVType.arbitrary = Except.ok () ∧
    absolute_coordinates_access QVType.linear = Except.ok () ∧
    reciprocal_reference_offset_access QVType.arbitrary = Except.ok () ∧
    reciprocal_origin_offset_access QVType.arbitrary = Except.ok () :=
  ⟨rfl, rfl, rfl, rfl, rfl, rfl⟩

/-- C10: assigning a string to `period` raises `IndexError` (from
`value.strip().split()[0]` on an empty token list) exactly when the
string is empty or whitespace-only; for every string with at least one
non-whitespace token the sentinel check completes and the setter
succeeds. -/
theorem C10_period_empty_string (s : DimensionWithLinearSpacing)
    (parsed : EV) (v : List Char) :
    period_set s v parsed = Except.error PyErr.indexError ↔
      v.all pyIsSpace = true := by
  constructor
  · intro h
    rw [← pySplit_eq_nil_iff]
    cases hs : pySplit v with
    | nil => rfl
    | cons t ts =>
      rw [period_set, hs] at h
      by_cases ht : t ∈ infTokens <;> simp [ht] at h
  · intro h
    have hnil := (pySplit_eq_nil_iff v).mpr h
    rw [period_set, hnil]
